import Mathlib

/-!
Verification of the upgrade-orchestration workflows in `upgrade/satellite.py`
and `upgrade/capsule.py` (the satellite6-upgrade repository).

The workflows are shallowly embedded as pure functions producing the ordered
trace of externally visible actions (remote commands, repository actions,
bug-tracker queries, ...) together with an outcome: `Except.error 1` models
`sys.exit(1)`, `Except.ok` models normal return.  The helper operations the
workflows call (`enable_disable_repo`, `repository_setup`, `host_pings`,
`pulp2_pulp3_migration`, ...) are external collaborators; each call is
recorded as one trace event, and the results of the fallible ones
(`host_pings`, `bz_bug_is_open`, `pulp2_pulp3_migration`) are supplied as
oracle parameters.
-/

/-- One externally visible action of a workflow run.  Each constructor
corresponds to one helper call or remote command in the Python source. -/
inductive Event where
  | hostPings (host : String)
  | hostSshAvailabilityCheck (host : String)
  | yumReposCleanup (host : String)
  | foremanServiceRestart (host : String)
  | enableRepos (names : List String)
  | disableRepos (names : List String)
  | repositorySetup (repo repoName baseUrl : String) (enabled gpg : Bool)
  | foremanMaintainPackageUpdate
  | bugQuery (bugId : Nat)
  | workaround1967131 (apply : Bool)
  | workaround1829115 (host : String)
  | pulp2Pulp3Migration
  | upgradeUsingForemanMaintain (satHost : Bool)
  | nonfmUpgrade
  | setupSatelliteFirewall
  | setupCapsuleFirewall
  | runCommand (cmd : String)
  | foremanPackagesInstallationCheck (state : String)
  | setupSatelliteRepo
  | updatePackages
  | reboot (timeoutSeconds : Nat)
  | upgradeValidation (strict : Bool)
  | copySshKey (sat : String) (hosts : List String)
  | updateCapsulesToSatellite (hosts : List String)
  | httpProxyConfig (hosts : List String)
  | syncCapsuleReposToSatellite (hosts : List String)
  | addBaseOSRepo (baseurl : String) (host : String)
  | capsuleSync (host : String)
  | waitUntillCapsuleSync (host : String)
  deriving Repr, DecidableEq

/-- Modelled from the spec: the per-run configuration surface
(`settings.upgrade.*`, `settings.repos.*` and the static RHEL content labels
from `upgrade/helpers/constants/constants.py`, which is not part of the
sources).  The `RHEL_CONTENTS[...]["label"]` strings are carried as opaque
string fields. -/
structure Settings where
  from_version : String
  to_version : String
  os : String
  distribution : String
  foreman_maintain_satellite_upgrade : Bool
  foreman_maintain_capsule_upgrade : Bool
  downstream_fm_upgrade : Bool
  satellite_capsule_setup_reboot : Bool
  upgrade_with_http_proxy : Bool
  ansible_repo_version : String
  rhsclLabel : String
  serverLabel : String
  toolsLabel : String
  capsuleLabel : String
  maintenanceLabel : String
  capsule_ak : String
  rhel6_os : String
  rhel7_os : String
  deriving Repr, DecidableEq

/-- Modelled from the spec: one entry of the static custom-repo table
`CUSTOM_SAT_REPO` (defined in `upgrade/helpers/constants/constants.py`,
not part of the sources): name, base URL, GPG policy and enabled flag. -/
structure CustomRepoEntry where
  repository : String
  repository_name : String
  base_url : String
  enabled : Bool
  gpg : Bool
  deriving Repr, DecidableEq

/-- The `repository_setup(...)` call made for one custom-repo table entry
(`satellite.py` lines 112-119). -/
def customRepoEvent (r : CustomRepoEntry) : Event :=
  Event.repositorySetup r.repository r.repository_name r.base_url r.enabled r.gpg

/-- `settings.upgrade.os[-1]`: the last character of the OS string,
e.g. `"rhel7"` gives `"7"`. -/
def majorVer (s : Settings) : String :=
  ((s.os.toList.getLast?).getD ' ').toString

/-- The literal repository name enabled in the cdn branch of
`satellite_upgrade` (`satellite.py` line 110). -/
def cdnMaintenanceRepoName : String :=
  "rhel-7-server-satellite-maintenance-6-rpms"

/-- The templated satellite repository name enabled in the non-foreman-maintain
cdn branch of `satellite_upgrade` (`satellite.py` lines 149-150). -/
def cdnSatelliteRepoName (s : Settings) : String :=
  "rhel-" ++ majorVer s ++ "-server-satellite-" ++ s.to_version ++ "-rpms"

/-- The templated ansible repository name enabled by the capsule workflows
(`capsule.py` lines 136-137 and 193-194). -/
def ansibleRepoName (s : Settings) : String :=
  "rhel-" ++ majorVer s ++ "-server-ansible-" ++ s.ansible_repo_version ++ "-rpms"

/-- The `subscription-manager register` command run by the capsule workflows
(`capsule.py` lines 117-118 and 179-180). -/
def registerCommand (s : Settings) : String :=
  "subscription-manager register --org=\"Default_Organization\" --activationkey="
    ++ s.capsule_ak ++ " --force"

/-- Repository configuration phase of `satellite_upgrade`
(`satellite.py` lines 102-120): disable all repos, enable the common
rhscl/server repos unless foreman-maintain is used, then either enable the
cdn maintenance repo or set up every custom repo and update the
foreman-maintain package. -/
def satRepoConfigTrace (s : Settings) (customRepos : List CustomRepoEntry) : List Event :=
  [Event.disableRepos ["*"]]
  ++ (if s.foreman_maintain_satellite_upgrade then []
      else [Event.enableRepos [s.rhsclLabel, s.serverLabel]])
  ++ (if s.distribution == "cdn" then
        [Event.enableRepos [cdnMaintenanceRepoName]]
      else
        (customRepos.map customRepoEvent) ++ [Event.foremanMaintainPackageUpdate])

/-- Content-migration phase of `satellite_upgrade` (`satellite.py` lines
121-126): only for target version 6.10, query bug 1967131 and apply the
workaround when open, run the pulp2→pulp3 migration, then query the bug
again and run the workaround again when still open. -/
def satMigrationTrace (s : Settings) (bugOpen : Nat → Bool) : List Event :=
  if s.to_version == "6.10" then
    (if bugOpen 1967131 then
       [Event.bugQuery 1967131, Event.workaround1967131 true]
     else [Event.bugQuery 1967131])
    ++ [Event.pulp2Pulp3Migration]
    ++ (if bugOpen 1967131 then
          [Event.bugQuery 1967131, Event.workaround1967131 false]
        else [Event.bugQuery 1967131])
  else []

/-- Upgrade-execution phase of `satellite_upgrade` (`satellite.py` lines
130-152): either the foreman-maintain upgrade, or the manual path (firewall,
package unlock/update and repo re-setup when not zStream, the cdn satellite
repo, the non-foreman-maintain upgrade, package lock). -/
def satExecTrace (s : Settings) (zstream : Bool) : List Event :=
  if s.foreman_maintain_satellite_upgrade then
    [Event.upgradeUsingForemanMaintain true]
  else
    [Event.setupSatelliteFirewall]
    ++ (if zstream then []
        else
          [Event.runCommand "rm -rf /etc/yum.repos.d/rhel-\x7boptional,released\x7d.repo",
           Event.foremanPackagesInstallationCheck "unlock",
           Event.setupSatelliteRepo,
           Event.foremanMaintainPackageUpdate,
           Event.updatePackages])
    ++ (if s.distribution == "cdn" then [Event.enableRepos [cdnSatelliteRepoName s]] else [])
    ++ [Event.nonfmUpgrade, Event.foremanPackagesInstallationCheck "lock"]

/-- Final phase of `satellite_upgrade` (`satellite.py` lines 153-158):
optional reboot, SSH availability check, strict upgrade validation. -/
def satFinishTrace (s : Settings) (satHost : String) : List Event :=
  (if s.satellite_capsule_setup_reboot then [Event.reboot 180] else [])
  ++ [Event.hostSshAvailabilityCheck satHost, Event.upgradeValidation true]

/-- `satellite_upgrade(zstream)` from `satellite.py`.  `bugOpen` is the
bug-tracker oracle (`bz_bug_is_open`), `pulpOk` the result the
`pulp2_pulp3_migration` helper would report, `satHost` the value of
`env.get("satellite_host")`.  Returns the event trace and the outcome
(`Except.error 1` models `sys.exit(1)`). -/
def satellite_upgrade (s : Settings) (customRepos : List CustomRepoEntry)
    (bugOpen : Nat → Bool) (pulpOk : Bool) (zstream : Bool) (satHost : String) :
    List Event × Except Nat Unit :=
  if zstream && (s.from_version != s.to_version) then
    ([], Except.error 1)
  else if s.to_version == "6.10" && !pulpOk then
    (satRepoConfigTrace s customRepos ++ satMigrationTrace s bugOpen, Except.error 1)
  else
    (satRepoConfigTrace s customRepos ++ satMigrationTrace s bugOpen
      ++ satExecTrace s zstream ++ satFinishTrace s satHost, Except.ok ())

/-- The event trace of a `satellite_upgrade` run. -/
def satUpgradeTrace (s : Settings) (customRepos : List CustomRepoEntry)
    (bugOpen : Nat → Bool) (pulpOk : Bool) (zstream : Bool) (satHost : String) :
    List Event :=
  (satellite_upgrade s customRepos bugOpen pulpOk zstream satHost).1

/-- The per-host loop of `satellite_capsule_setup` (`capsule.py` lines
52-67).  For each host: ping it (appending it to the non-responsive list on
failure, otherwise checking SSH availability), apply workaround 1829115,
query bug 1829115, restart the foreman services; then, still inside the
loop body, exit 1 if the non-responsive list is non-empty and otherwise copy
the SSH key to all capsule hosts.  Returns the trace and, on normal
completion, the final non-responsive list. -/
def capsuleSetupLoop (sat : String) (allHosts : List String) (pings : String → Bool)
    (nonResponsive : List String) : List String → List Event × Except Nat (List String)
  | [] => ([], Except.ok nonResponsive)
  | capHost :: rest =>
    let probe := if pings capHost then
        [Event.hostPings capHost, Event.hostSshAvailabilityCheck capHost]
      else [Event.hostPings capHost]
    let nr := if pings capHost then nonResponsive else nonResponsive ++ [capHost]
    let mid := [Event.workaround1829115 capHost, Event.bugQuery 1829115,
                Event.foremanServiceRestart capHost]
    if nr.isEmpty then
      match capsuleSetupLoop sat allHosts pings nr rest with
      | (t, r) => (probe ++ mid ++ [Event.copySshKey sat allHosts] ++ t, r)
    else
      (probe ++ mid, Except.error 1)

/-- The satellite-side block of `satellite_capsule_setup` run when
`upgradable_capsule` is true (`capsule.py` lines 68-81): capsule list update
on the satellite, optional HTTP proxy configuration, repo sync, then the
per-host baseOS repo and yum cleanup steps. -/
def satSideTrace (hosts : List String) (baseurl : String) (s : Settings) : List Event :=
  [Event.updateCapsulesToSatellite hosts]
  ++ (if s.upgrade_with_http_proxy then [Event.httpProxyConfig hosts] else [])
  ++ [Event.syncCapsuleReposToSatellite hosts]
  ++ (hosts.map (fun h => [Event.addBaseOSRepo baseurl h, Event.yumReposCleanup h])).flatten

/-- `satellite_capsule_setup` from `capsule.py`: OS selection (exit 1 when
neither rhel6 nor rhel7), the per-host probe loop, then — only when
`upgradable_capsule` — the satellite-side block, returning the capsule host
list; with `upgradable_capsule` false the function falls through and
returns `none` (Python's implicit `None`). -/
def satellite_capsule_setup (sat : String) (capsuleHosts : List String)
    (osVersion : String) (upgradableCapsule : Bool) (s : Settings)
    (pings : String → Bool) : List Event × Except Nat (Option (List String)) :=
  if osVersion == "rhel6" || osVersion == "rhel7" then
    let baseurl := if osVersion == "rhel6" then s.rhel6_os else s.rhel7_os
    match capsuleSetupLoop sat capsuleHosts pings [] capsuleHosts with
    | (t, Except.error c) => (t, Except.error c)
    | (t, Except.ok _) =>
      if upgradableCapsule then
        (t ++ satSideTrace capsuleHosts baseurl s, Except.ok (some capsuleHosts))
      else (t, Except.ok none)
  else ([], Except.error 1)

/-- The two `subscription-manager` commands both capsule upgrade workflows
run after registering (`capsule.py` lines 117-120 and 179-182). -/
def capsuleRegisterTrace (s : Settings) : List Event :=
  [Event.runCommand (registerCommand s),
   Event.runCommand "subscription-manager repos --list"]

/-- `satellite_capsule_upgrade` from `capsule.py` (lines 85-154): pre-upgrade
capsule sync check, firewall, registration, the repo enable/disable block
(cdn: enable tools+capsule+maintenance; custom: disable maintenance; then
disable tools+capsule when the versions differ; then enable the ansible
repo), the upgrade execution, reboot, validation and post-upgrade sync. -/
def satellite_capsule_upgrade (capHost satHost : String) (s : Settings) :
    List Event × Except Nat Unit :=
  ([Event.capsuleSync capHost, Event.waitUntillCapsuleSync capHost,
    Event.setupCapsuleFirewall]
   ++ capsuleRegisterTrace s
   ++ (if s.distribution == "cdn" then
         [Event.enableRepos [s.toolsLabel, s.capsuleLabel, s.maintenanceLabel]]
       else [Event.disableRepos [s.maintenanceLabel]])
   ++ (if s.from_version != s.to_version then
         [Event.disableRepos [s.toolsLabel, s.capsuleLabel]]
       else [])
   ++ [Event.enableRepos [ansibleRepoName s]]
   ++ (if s.foreman_maintain_capsule_upgrade then
         [Event.foremanMaintainPackageUpdate, Event.upgradeUsingForemanMaintain false]
       else [Event.nonfmUpgrade])
   ++ [Event.reboot 160, Event.hostSshAvailabilityCheck capHost,
       Event.upgradeValidation false, Event.capsuleSync capHost,
       Event.waitUntillCapsuleSync capHost],
   Except.ok ())

/-- The event trace of a `satellite_capsule_upgrade` run. -/
def capsuleUpgradeTrace (capHost satHost : String) (s : Settings) : List Event :=
  (satellite_capsule_upgrade capHost satHost s).1

/-- `satellite_capsule_zstream_upgrade` from `capsule.py` (lines 157-207):
exit 1 when FROM and TO versions differ, else registration, the repo block
(cdn: enable tools+capsule+maintenance; custom: disable them; then enable
the ansible repo), the upgrade execution, optional reboot and validation. -/
def satellite_capsule_zstream_upgrade (capHost : String) (s : Settings) :
    List Event × Except Nat Unit :=
  if s.from_version != s.to_version then
    ([], Except.error 1)
  else
    (capsuleRegisterTrace s
     ++ (if s.distribution == "cdn" then
           [Event.enableRepos [s.toolsLabel, s.capsuleLabel, s.maintenanceLabel]]
         else [Event.disableRepos [s.toolsLabel, s.capsuleLabel, s.maintenanceLabel]])
     ++ [Event.enableRepos [ansibleRepoName s]]
     ++ (if s.foreman_maintain_capsule_upgrade then
           [Event.upgradeUsingForemanMaintain false]
         else [Event.nonfmUpgrade])
     ++ (if s.satellite_capsule_setup_reboot then [Event.reboot 160] else [])
     ++ [Event.hostSshAvailabilityCheck capHost, Event.upgradeValidation false],
     Except.ok ())

/-- The event trace of a `satellite_capsule_zstream_upgrade` run. -/
def capsuleZstreamTrace (capHost : String) (s : Settings) : List Event :=
  (satellite_capsule_zstream_upgrade capHost s).1

/-- All repository names appearing in enable actions of a trace, in order. -/
def enabledNames : List Event → List String
  | [] => []
  | Event.enableRepos ns :: rest => ns ++ enabledNames rest
  | _ :: rest => enabledNames rest

/-- Whether an event is a repository enable action. -/
def Event.isEnable : Event → Bool
  | .enableRepos _ => true
  | _ => false

/-- Whether an event is a `repository_setup` call. -/
def Event.isRepoSetup : Event → Bool
  | .repositorySetup _ _ _ _ _ => true
  | _ => false

/-- Whether a repository enable or disable action mentions the given
repository name. -/
def mentionsRepo (n : String) : Event → Bool
  | .enableRepos l => decide (n ∈ l)
  | .disableRepos l => decide (n ∈ l)
  | _ => false

/-- The events the per-host setup loop can emit. -/
def isSetupLoopEvent : Event → Bool
  | .hostPings _ => true
  | .hostSshAvailabilityCheck _ => true
  | .workaround1829115 _ => true
  | .bugQuery _ => true
  | .foremanServiceRestart _ => true
  | .copySshKey _ _ => true
  | _ => false

/-- The satellite-side / per-host-repo steps of capsule setup named by the
claims: capsule list update, HTTP proxy configuration, repo sync, baseOS
repo addition and yum repos cleanup. -/
def isSatSideStep : Event → Bool
  | .updateCapsulesToSatellite _ => true
  | .httpProxyConfig _ => true
  | .syncCapsuleReposToSatellite _ => true
  | .addBaseOSRepo _ _ => true
  | .yumReposCleanup _ => true
  | _ => false

/-- One full iteration of the capsule setup loop for a reachable host. -/
def setupIterTrace (sat : String) (allHosts : List String) (h : String) : List Event :=
  [Event.hostPings h, Event.hostSshAvailabilityCheck h, Event.workaround1829115 h,
   Event.bugQuery 1829115, Event.foremanServiceRestart h,
   Event.copySshKey sat allHosts]

/-- A concrete run configuration used by witnesses: upgrade from 6.9 to 6.10
on rhel7 from the cdn with foreman-maintain. -/
def wSettings : Settings where
  from_version := "6.9"
  to_version := "6.10"
  os := "rhel7"
  distribution := "cdn"
  foreman_maintain_satellite_upgrade := true
  foreman_maintain_capsule_upgrade := true
  downstream_fm_upgrade := false
  satellite_capsule_setup_reboot := true
  upgrade_with_http_proxy := false
  ansible_repo_version := "2.9"
  rhsclLabel := "rhel-server-rhscl-7-rpms"
  serverLabel := "rhel-7-server-rpms"
  toolsLabel := "rhel-7-server-satellite-tools-6.10-rpms"
  capsuleLabel := "rhel-7-server-satellite-capsule-6.10-rpms"
  maintenanceLabel := "rhel-7-server-satellite-maintenance-6.10-rpms"
  capsule_ak := "ak-rhel7"
  rhel6_os := "http://repos.example.com/rhel6os"
  rhel7_os := "http://repos.example.com/rhel7os"

/-- C1: with zStream requested and differing FROM/TO versions, both
`satellite_upgrade(zstream=True)` and `satellite_capsule_zstream_upgrade`
exit with status 1 having issued no remote command at all (empty trace). -/
theorem c1_zstream_mismatch_aborts_before_remote (s : Settings)
    (customRepos : List CustomRepoEntry) (bugOpen : Nat → Bool) (pulpOk : Bool)
    (satHost capHost : String) (h : s.from_version ≠ s.to_version) :
    satellite_upgrade s customRepos bugOpen pulpOk true satHost = ([], Except.error 1)
    ∧ satellite_capsule_zstream_upgrade capHost s = ([], Except.error 1) := by
  have hb : (s.from_version != s.to_version) = true := by
    simp [bne_iff_ne, h]
  constructor
  · simp [satellite_upgrade, hb]
  · simp [satellite_capsule_zstream_upgrade, hb]

/-- Witness for C1 at a concrete mismatched configuration. -/
theorem c1_witness :
    satellite_upgrade wSettings [] (fun _ => false) true true "sat"
        = ([], Except.error 1)
    ∧ satellite_capsule_zstream_upgrade "cap" wSettings = ([], Except.error 1) :=
  c1_zstream_mismatch_aborts_before_remote wSettings [] (fun _ => false) true
    "sat" "cap" (by decide)

/-- In a non-zStream run the trace starts with the wildcard disable action. -/
theorem satUpgradeTrace_head (s : Settings) (customRepos : List CustomRepoEntry)
    (bugOpen : Nat → Bool) (pulpOk : Bool) (satHost : String) :
    ∃ rest, satUpgradeTrace s customRepos bugOpen pulpOk false satHost
      = Event.disableRepos ["*"] :: rest := by
  unfold satUpgradeTrace satellite_upgrade
  cases hb : (s.to_version == "6.10" && !pulpOk) <;>
    simp [satRepoConfigTrace, hb]

/-- C3: in the full (non-zStream) satellite upgrade flow, the wildcard
disable-all repository action occurs at a strictly earlier trace position
than every repository enable action of the run. -/
theorem c3_disable_all_before_enables (s : Settings)
    (customRepos : List CustomRepoEntry) (bugOpen : Nat → Bool) (pulpOk : Bool)
    (satHost : String) (i : Nat) (names : List String)
    (he : (satUpgradeTrace s customRepos bugOpen pulpOk false satHost)[i]?
      = some (Event.enableRepos names)) :
    ∃ j, j < i ∧ (satUpgradeTrace s customRepos bugOpen pulpOk false satHost)[j]?
      = some (Event.disableRepos ["*"]) := by
  obtain ⟨rest, hr⟩ := satUpgradeTrace_head s customRepos bugOpen pulpOk satHost
  cases i with
  | zero =>
    rw [hr] at he
    simp at he
  | succ k =>
    exact ⟨0, Nat.succ_pos k, by simp [hr]⟩

/-- Witness for C3: in a concrete cdn run the enable at position 1 is
preceded by the wildcard disable at position 0. -/
theorem c3_witness :
    ∃ j, j < 1 ∧ (satUpgradeTrace wSettings [] (fun _ => false) true false "sat")[j]?
      = some (Event.disableRepos ["*"]) :=
  c3_disable_all_before_enables wSettings [] (fun _ => false) true "sat" 1
    [cdnMaintenanceRepoName] (by decide)

/-- C4: when the target version is 6.10 and the content migration reports
failure, `satellite_upgrade` exits with status 1 and neither upgrade
execution step (`upgrade_using_foreman_maintain` or `nonfm_upgrade`) appears
in the trace. -/
theorem c4_migration_failure_aborts (s : Settings)
    (customRepos : List CustomRepoEntry) (bugOpen : Nat → Bool)
    (zstream : Bool) (satHost : String) (h10 : s.to_version = "6.10") :
    (satellite_upgrade s customRepos bugOpen false zstream satHost).2 = Except.error 1
    ∧ (∀ b, Event.upgradeUsingForemanMaintain b
        ∉ satUpgradeTrace s customRepos bugOpen false zstream satHost)
    ∧ Event.nonfmUpgrade ∉ satUpgradeTrace s customRepos bugOpen false zstream satHost := by
  unfold satUpgradeTrace satellite_upgrade
  cases hz : (zstream && (s.from_version != s.to_version)) with
  | true => simp
  | false =>
    have hcond : (s.to_version == "6.10" && !false) = true := by
      simp [h10]
    simp only [hz, Bool.false_eq_true, if_false, hcond, if_true]
    cases hd : (s.distribution == "cdn") <;>
      cases hf : s.foreman_maintain_satellite_upgrade <;>
        cases ho : bugOpen 1967131 <;>
          simp [satRepoConfigTrace, satMigrationTrace, customRepoEvent, h10, hd, hf, ho]

/-- Witness for C4 at a concrete 6.10 run with a failing migration. -/
theorem c4_witness :
    (satellite_upgrade wSettings [] (fun _ => false) false false "sat").2 = Except.error 1
    ∧ (∀ b, Event.upgradeUsingForemanMaintain b
        ∉ satUpgradeTrace wSettings [] (fun _ => false) false false "sat")
    ∧ Event.nonfmUpgrade ∉ satUpgradeTrace wSettings [] (fun _ => false) false false "sat" :=
  c4_migration_failure_aborts wSettings [] (fun _ => false) false "sat" (by decide)

/-- When every host before `bad` is reachable and `bad` is not, the setup
loop runs one full iteration (probe, workaround, bug query, service restart,
SSH-key copy) per earlier host, then probes `bad`, applies the workaround
and service restart to it, and exits 1 — without touching the remaining
hosts. -/
theorem capsuleSetupLoop_first_failure (sat : String) (allHosts : List String)
    (pings : String → Bool) (pre : List String) (bad : String)
    (post : List String) (hpre : ∀ h ∈ pre, pings h = true)
    (hbad : pings bad = false) :
    capsuleSetupLoop sat allHosts pings [] (pre ++ bad :: post)
      = ((pre.map (setupIterTrace sat allHosts)).flatten
          ++ [Event.hostPings bad, Event.workaround1829115 bad,
              Event.bugQuery 1829115, Event.foremanServiceRestart bad],
         Except.error 1) := by
  induction pre with
  | nil =>
    simp [capsuleSetupLoop, hbad]
  | cons h t ih =>
    have hh : pings h = true := hpre h (by simp)
    have ht : ∀ x ∈ t, pings x = true := fun x hx => hpre x (by simp [hx])
    simp [capsuleSetupLoop, hh, ih ht, setupIterTrace]

/-- C2 counterexample: with a reachable first host and an unreachable second
host, `satellite_capsule_setup` still performs the credential copy
(`copy_ssh_key`) during the first host's iteration even though a host of the
batch fails the reachability probe, and then exits 1. -/
theorem c2_counterexample :
    Event.copySshKey "sat" ["capx", "capy"]
      ∈ (satellite_capsule_setup "sat" ["capx", "capy"] "rhel7" true wSettings
          (fun h => h == "capx")).1
    ∧ (satellite_capsule_setup "sat" ["capx", "capy"] "rhel7" true wSettings
        (fun h => h == "capx")).2 = Except.error 1 :=
  ⟨by decide, rfl⟩

/-- C2 amended: the abort decision is re-evaluated at the end of every
iteration of the probe loop, so the run exits 1 at the first failing host:
each host before the first failing one gets a full iteration including the
credential copy, the failing host still receives the workaround and service
restart but later hosts are never probed, and no further step of the batch
runs. -/
theorem c2_first_failure_aborts_loop (sat : String) (pre : List String)
    (bad : String) (post : List String) (upgradableCapsule : Bool)
    (s : Settings) (pings : String → Bool)
    (hpre : ∀ h ∈ pre, pings h = true) (hbad : pings bad = false) :
    satellite_capsule_setup sat (pre ++ bad :: post) "rhel7" upgradableCapsule s pings
      = ((pre.map (setupIterTrace sat (pre ++ bad :: post))).flatten
          ++ [Event.hostPings bad, Event.workaround1829115 bad,
              Event.bugQuery 1829115, Event.foremanServiceRestart bad],
         Except.error 1) := by
  unfold satellite_capsule_setup
  rw [capsuleSetupLoop_first_failure sat (pre ++ bad :: post) pings pre bad post hpre hbad]
  simp

/-- Witness for the amended C2: one reachable host followed by an
unreachable one. -/
theorem c2_first_failure_witness :
    satellite_capsule_setup "sat" (["capx"] ++ "capy" :: []) "rhel7" true wSettings
        (fun h => h == "capx")
      = ((["capx"].map (setupIterTrace "sat" (["capx"] ++ "capy" :: []))).flatten
          ++ [Event.hostPings "capy", Event.workaround1829115 "capy",
              Event.bugQuery 1829115, Event.foremanServiceRestart "capy"],
         Except.error 1) :=
  c2_first_failure_aborts_loop "sat" ["capx"] "capy" [] true wSettings
    (fun h => h == "capx") (by decide) (by decide)

/-- A concrete configuration on rhel8 targeting 6.9, used to exhibit that the
cdn maintenance repo name ignores the OS major and target version. -/
def c5Settings : Settings :=
  { wSettings with os := "rhel8", to_version := "6.9" }

/-- C5 counterexample: in a concrete cdn run with OS major 8 and target
version 6.9, the enabled maintenance repo is the hardcoded
`rhel-7-server-satellite-maintenance-6-rpms`, which does not match the
claimed template `rhel-\x7bmajor\x7d-server-satellite-\x7btoVersion\x7d-rpms`. -/
theorem c5_counterexample :
    cdnMaintenanceRepoName
      ∈ enabledNames (satUpgradeTrace c5Settings [] (fun _ => false) true false "sat")
    ∧ cdnMaintenanceRepoName ≠ cdnSatelliteRepoName c5Settings := by
  decide

/-- C5 amended: in the cdn channel the maintenance repo enabled is always
the fixed literal `rhel-7-server-satellite-maintenance-6-rpms`, independent
of OS major and target version; the OS-major/target-version templated name
`rhel-\x7bmajor\x7d-server-satellite-\x7btoVersion\x7d-rpms` is enabled only
on the non-foreman-maintain path. -/
theorem c5_cdn_repo_names (s : Settings) (customRepos : List CustomRepoEntry)
    (bugOpen : Nat → Bool) (pulpOk : Bool) (zstream : Bool) (satHost : String)
    (hcdn : s.distribution = "cdn")
    (hz : (zstream && (s.from_version != s.to_version)) = false) :
    Event.enableRepos [cdnMaintenanceRepoName]
      ∈ satUpgradeTrace s customRepos bugOpen pulpOk zstream satHost
    ∧ (s.foreman_maintain_satellite_upgrade = false →
        (s.to_version == "6.10" && !pulpOk) = false →
        Event.enableRepos [cdnSatelliteRepoName s]
          ∈ satUpgradeTrace s customRepos bugOpen pulpOk zstream satHost) := by
  unfold satUpgradeTrace satellite_upgrade
  constructor
  · cases hmig : (s.to_version == "6.10" && !pulpOk) <;>
      simp [hz, hmig, satRepoConfigTrace, hcdn]
  · intro hfm hmig
    simp [hz, hmig, satExecTrace, hfm, hcdn]

/-- Witness for the amended C5: a concrete cdn run on the
non-foreman-maintain path enables both names. -/
theorem c5_witness :
    Event.enableRepos [cdnMaintenanceRepoName]
      ∈ satUpgradeTrace { wSettings with foreman_maintain_satellite_upgrade := false }
          [] (fun _ => false) true false "sat"
    ∧ (({ wSettings with foreman_maintain_satellite_upgrade := false } : Settings).foreman_maintain_satellite_upgrade = false →
        (({ wSettings with foreman_maintain_satellite_upgrade := false } : Settings).to_version == "6.10" && !true) = false →
        Event.enableRepos
            [cdnSatelliteRepoName { wSettings with foreman_maintain_satellite_upgrade := false }]
          ∈ satUpgradeTrace { wSettings with foreman_maintain_satellite_upgrade := false }
              [] (fun _ => false) true false "sat") :=
  c5_cdn_repo_names { wSettings with foreman_maintain_satellite_upgrade := false }
    [] (fun _ => false) true false "sat" (by decide) (by decide)

/-- `enabledNames` distributes over trace concatenation. -/
theorem enabledNames_append (a b : List Event) :
    enabledNames (a ++ b) = enabledNames a ++ enabledNames b := by
  induction a with
  | nil => simp [enabledNames]
  | cons e t ih => cases e <;> simp [enabledNames, ih]

/-- Every event produced from the custom-repo table is a `repository_setup`
call, so the filter keeps all of them. -/
theorem filter_isRepoSetup_map (l : List CustomRepoEntry) :
    (l.map customRepoEvent).filter Event.isRepoSetup = l.map customRepoEvent := by
  induction l with
  | nil => rfl
  | cons r t ih => simp [customRepoEvent, Event.isRepoSetup, ih]

/-- `repository_setup` calls enable no repository through
`enable_disable_repo`. -/
theorem enabledNames_map_customRepoEvent (l : List CustomRepoEntry) :
    enabledNames (l.map customRepoEvent) = [] := by
  induction l with
  | nil => rfl
  | cons r t ih => simp [customRepoEvent, enabledNames, ih]

/-- C6: with the custom distribution channel, `satellite_upgrade` passes
each entry of the custom-repo table to `repository_setup` exactly once and
in table order (the `repository_setup` events of the trace are exactly the
table), and neither cdn repository name (the hardcoded maintenance name nor
the templated satellite name) is enabled, provided the common rhscl/server
content labels are not themselves those cdn names. -/
theorem c6_custom_channel (s : Settings) (customRepos : List CustomRepoEntry)
    (bugOpen : Nat → Bool) (pulpOk : Bool) (zstream : Bool) (satHost : String)
    (hcustom : s.distribution = "custom")
    (hz : (zstream && (s.from_version != s.to_version)) = false)
    (h1 : cdnMaintenanceRepoName ≠ s.rhsclLabel)
    (h2 : cdnMaintenanceRepoName ≠ s.serverLabel)
    (h3 : cdnSatelliteRepoName s ≠ s.rhsclLabel)
    (h4 : cdnSatelliteRepoName s ≠ s.serverLabel) :
    (satUpgradeTrace s customRepos bugOpen pulpOk zstream satHost).filter Event.isRepoSetup
      = customRepos.map customRepoEvent
    ∧ cdnMaintenanceRepoName
        ∉ enabledNames (satUpgradeTrace s customRepos bugOpen pulpOk zstream satHost)
    ∧ cdnSatelliteRepoName s
        ∉ enabledNames (satUpgradeTrace s customRepos bugOpen pulpOk zstream satHost) := by
  have hd : (s.distribution == "cdn") = false := by simp [hcustom]
  unfold satUpgradeTrace satellite_upgrade
  cases hmig : (s.to_version == "6.10" && !pulpOk) <;>
    cases hf : s.foreman_maintain_satellite_upgrade <;>
      cases ho : bugOpen 1967131 <;>
        cases h10 : (s.to_version == "6.10") <;>
          cases hzs : zstream <;>
            cases hrb : s.satellite_capsule_setup_reboot <;>
              simp_all [satRepoConfigTrace, satMigrationTrace, satExecTrace,
                satFinishTrace, enabledNames_append, enabledNames,
                filter_isRepoSetup_map, enabledNames_map_customRepoEvent,
                Event.isRepoSetup]

/-- Witness for C6 at a concrete custom-channel run with a one-entry table. -/
theorem c6_witness :
    (satUpgradeTrace { wSettings with distribution := "custom" }
        [⟨"customsat", "custom-sat-repo", "http://repos.example.com/sat", true, false⟩]
        (fun _ => false) true false "sat").filter Event.isRepoSetup
      = [⟨"customsat", "custom-sat-repo", "http://repos.example.com/sat", true, false⟩].map
          customRepoEvent
    ∧ cdnMaintenanceRepoName
        ∉ enabledNames (satUpgradeTrace { wSettings with distribution := "custom" }
            [⟨"customsat", "custom-sat-repo", "http://repos.example.com/sat", true, false⟩]
            (fun _ => false) true false "sat")
    ∧ cdnSatelliteRepoName { wSettings with distribution := "custom" }
        ∉ enabledNames (satUpgradeTrace { wSettings with distribution := "custom" }
            [⟨"customsat", "custom-sat-repo", "http://repos.example.com/sat", true, false⟩]
            (fun _ => false) true false "sat") :=
  c6_custom_channel { wSettings with distribution := "custom" }
    [⟨"customsat", "custom-sat-repo", "http://repos.example.com/sat", true, false⟩]
    (fun _ => false) true false "sat" (by decide) (by decide) (by decide) (by decide)
    (by decide) (by decide)

/-- C7 counterexample: a concrete full satellite upgrade run (cdn,
foreman-maintain, reboot enabled) never enables the ansible repository name,
so the ansible repo is not "enabled in every upgrade workflow". -/
theorem c7_counterexample :
    ansibleRepoName wSettings
      ∉ enabledNames (satUpgradeTrace wSettings [] (fun _ => false) true false "sat") := by
  decide

/-- The repo-configuration phase can only enable the common rhscl/server
labels or the cdn maintenance repo. -/
theorem enabledNames_satRepoConfigTrace (s : Settings) (cr : List CustomRepoEntry) :
    ∀ n ∈ enabledNames (satRepoConfigTrace s cr),
      n = s.rhsclLabel ∨ n = s.serverLabel ∨ n = cdnMaintenanceRepoName := by
  intro n hn
  unfold satRepoConfigTrace at hn
  simp only [enabledNames_append, List.mem_append, enabledNames] at hn
  split at hn <;> split at hn <;>
      simp_all [enabledNames_append, enabledNames, enabledNames_map_customRepoEvent] <;>
    tauto

/-- The migration phase enables no repository. -/
theorem enabledNames_satMigrationTrace (s : Settings) (bugOpen : Nat → Bool) :
    enabledNames (satMigrationTrace s bugOpen) = [] := by
  unfold satMigrationTrace
  split
  · cases ho : bugOpen 1967131 <;> simp [ho, enabledNames_append, enabledNames]
  · rfl

/-- The execution phase can only enable the cdn satellite repo. -/
theorem enabledNames_satExecTrace (s : Settings) (zstream : Bool) :
    ∀ n ∈ enabledNames (satExecTrace s zstream), n = cdnSatelliteRepoName s := by
  intro n hn
  unfold satExecTrace at hn
  split at hn
  · simp [enabledNames] at hn
  · simp only [enabledNames_append, List.mem_append, enabledNames] at hn
    split at hn <;> split at hn <;> simp_all [enabledNames_append, enabledNames]

/-- The final phase enables no repository. -/
theorem enabledNames_satFinishTrace (s : Settings) (satHost : String) :
    enabledNames (satFinishTrace s satHost) = [] := by
  unfold satFinishTrace
  split <;> simp [enabledNames_append, enabledNames]

/-- Every repository name enabled during a `satellite_upgrade` run is one of
the common rhscl/server labels or one of the two cdn repo names. -/
theorem enabledNames_satUpgradeTrace_subset (s : Settings)
    (cr : List CustomRepoEntry) (bugOpen : Nat → Bool) (pulpOk : Bool)
    (zstream : Bool) (satHost : String) :
    ∀ n ∈ enabledNames (satUpgradeTrace s cr bugOpen pulpOk zstream satHost),
      n = s.rhsclLabel ∨ n = s.serverLabel ∨ n = cdnMaintenanceRepoName
        ∨ n = cdnSatelliteRepoName s := by
  intro n hn
  unfold satUpgradeTrace satellite_upgrade at hn
  split at hn
  · simp [enabledNames] at hn
  · split at hn <;>
      simp only [enabledNames_append, List.mem_append] at hn
    · rcases hn with h | h
      · rcases enabledNames_satRepoConfigTrace s cr n h with h | h | h <;> simp [h]
      · rw [enabledNames_satMigrationTrace] at h
        simp at h
    · rcases hn with ((h | h) | h) | h
      · rcases enabledNames_satRepoConfigTrace s cr n h with h | h | h <;> simp [h]
      · rw [enabledNames_satMigrationTrace] at h
        simp at h
      · simp [enabledNames_satExecTrace s zstream n h]
      · rw [enabledNames_satFinishTrace] at h
        simp at h

/-- C7 amended: both capsule workflows enable the OS-major/ansible-version
templated ansible repository as the last repository enable action of the
run (for the zStream workflow, on runs that pass the version check), but the
satellite upgrade workflow never enables that repository (provided the
content labels and cdn repo names are not themselves the ansible name). -/
theorem c7_ansible_repo_last_capsule_only (s : Settings) (capHost satHost : String)
    (customRepos : List CustomRepoEntry) (bugOpen : Nat → Bool) (pulpOk : Bool)
    (zstream : Bool)
    (hl1 : ansibleRepoName s ≠ s.rhsclLabel)
    (hl2 : ansibleRepoName s ≠ s.serverLabel)
    (hl3 : ansibleRepoName s ≠ cdnMaintenanceRepoName)
    (hl4 : ansibleRepoName s ≠ cdnSatelliteRepoName s) :
    ((capsuleUpgradeTrace capHost satHost s).filter Event.isEnable).getLast?
        = some (Event.enableRepos [ansibleRepoName s])
    ∧ (s.from_version = s.to_version →
        ((capsuleZstreamTrace capHost s).filter Event.isEnable).getLast?
          = some (Event.enableRepos [ansibleRepoName s]))
    ∧ ansibleRepoName s
        ∉ enabledNames (satUpgradeTrace s customRepos bugOpen pulpOk zstream satHost) := by
  refine ⟨?_, ?_, ?_⟩
  · unfold capsuleUpgradeTrace satellite_capsule_upgrade
    cases hd : (s.distribution == "cdn") <;>
      cases hv : (s.from_version != s.to_version) <;>
        cases hf : s.foreman_maintain_capsule_upgrade <;>
          simp [hd, hv, hf, capsuleRegisterTrace, Event.isEnable, List.getLast?]
  · intro hveq
    have hv : (s.from_version != s.to_version) = false := by simp [hveq]
    unfold capsuleZstreamTrace satellite_capsule_zstream_upgrade
    cases hd : (s.distribution == "cdn") <;>
      cases hf : s.foreman_maintain_capsule_upgrade <;>
        cases hrb : s.satellite_capsule_setup_reboot <;>
          simp [hd, hv, hf, hrb, capsuleRegisterTrace, Event.isEnable, List.getLast?]
  · intro hmem
    rcases enabledNames_satUpgradeTrace_subset s customRepos bugOpen pulpOk zstream
        satHost _ hmem with h | h | h | h
    · exact hl1 h
    · exact hl2 h
    · exact hl3 h
    · exact hl4 h

/-- Witness for the amended C7 at a concrete matching-version
configuration. -/
theorem c7_witness :
    ((capsuleUpgradeTrace "cap" "sat" { wSettings with from_version := "6.10" }).filter
          Event.isEnable).getLast?
        = some (Event.enableRepos [ansibleRepoName { wSettings with from_version := "6.10" }])
    ∧ (({ wSettings with from_version := "6.10" } : Settings).from_version
          = ({ wSettings with from_version := "6.10" } : Settings).to_version →
        ((capsuleZstreamTrace "cap" { wSettings with from_version := "6.10" }).filter
            Event.isEnable).getLast?
          = some (Event.enableRepos [ansibleRepoName { wSettings with from_version := "6.10" }]))
    ∧ ansibleRepoName { wSettings with from_version := "6.10" }
        ∉ enabledNames (satUpgradeTrace { wSettings with from_version := "6.10" } []
            (fun _ => false) true false "sat") :=
  c7_ansible_repo_last_capsule_only { wSettings with from_version := "6.10" } "cap" "sat"
    [] (fun _ => false) true false (by decide) (by decide) (by decide) (by decide)

/-- C8 counterexample: in a concrete cdn capsule upgrade with differing
FROM/TO versions, the first repository action touching the tools repo is the
enable of tools+capsule+maintenance, and the disable of tools+capsule only
comes afterwards — the repos are enabled before, not after, being disabled. -/
theorem c8_counterexample :
    ((capsuleUpgradeTrace "cap" "sat" wSettings).filter
          (mentionsRepo wSettings.toolsLabel)).head?
        = some (Event.enableRepos
            [wSettings.toolsLabel, wSettings.capsuleLabel, wSettings.maintenanceLabel])
    ∧ Event.disableRepos [wSettings.toolsLabel, wSettings.capsuleLabel]
        ∈ capsuleUpgradeTrace "cap" "sat" wSettings := by
  decide

/-- C8 amended: when FROM and TO versions differ, the last repository action
of the capsule upgrade that mentions the tools repo is the disable of the
tools and capsule repos — so nothing re-enables them afterwards; in the cdn
channel this disable follows (rather than precedes) the single enable that
mentions them. -/
theorem c8_tools_disable_is_final (capHost satHost : String) (s : Settings)
    (hneq : s.from_version ≠ s.to_version)
    (ha : s.toolsLabel ≠ ansibleRepoName s) :
    ((capsuleUpgradeTrace capHost satHost s).filter
          (mentionsRepo s.toolsLabel)).getLast?
      = some (Event.disableRepos [s.toolsLabel, s.capsuleLabel]) := by
  have hv : (s.from_version != s.to_version) = true := by simp [bne_iff_ne, hneq]
  unfold capsuleUpgradeTrace satellite_capsule_upgrade
  simp only [hv, if_true, capsuleRegisterTrace, List.filter_append, List.append_assoc]
  have hmid : List.filter (mentionsRepo s.toolsLabel)
      [Event.disableRepos [s.toolsLabel, s.capsuleLabel]]
      = [Event.disableRepos [s.toolsLabel, s.capsuleLabel]] := by
    simp [mentionsRepo]
  cases hf : s.foreman_maintain_capsule_upgrade <;>
    simp [mentionsRepo, hmid, ha, List.getLast?_append_cons]

/-- Witness for the amended C8 at the concrete cdn configuration. -/
theorem c8_witness :
    ((capsuleUpgradeTrace "cap" "sat" wSettings).filter
          (mentionsRepo wSettings.toolsLabel)).getLast?
      = some (Event.disableRepos [wSettings.toolsLabel, wSettings.capsuleLabel]) :=
  c8_tools_disable_is_final "cap" "sat" wSettings (by decide) (by decide)

/-- C9 counterexample: in a concrete 6.10 run with the bug already closed,
the tracker is queried twice (not once), and the workaround is not applied
before the migration at all. -/
theorem c9_counterexample :
    (satUpgradeTrace wSettings [] (fun _ => false) true false "sat").count
        (Event.bugQuery 1967131) = 2
    ∧ Event.workaround1967131 true
        ∉ satUpgradeTrace wSettings [] (fun _ => false) true false "sat" := by
  decide

/-- The repo-configuration phase queries no bug. -/
theorem count_bugQuery_satRepoConfigTrace (s : Settings)
    (cr : List CustomRepoEntry) :
    (satRepoConfigTrace s cr).count (Event.bugQuery 1967131) = 0 := by
  unfold satRepoConfigTrace
  split <;> split <;>
    simp [List.count_append, List.count_cons, List.count_eq_zero, List.mem_map,
      customRepoEvent]

/-- On a 6.10 run the migration phase queries bug 1967131 exactly twice. -/
theorem count_bugQuery_satMigrationTrace (s : Settings) (bugOpen : Nat → Bool)
    (h10 : s.to_version = "6.10") :
    (satMigrationTrace s bugOpen).count (Event.bugQuery 1967131) = 2 := by
  unfold satMigrationTrace
  cases ho : bugOpen 1967131 <;>
    simp [h10, ho, List.count_append, List.count_cons]

/-- The execution phase queries no bug. -/
theorem count_bugQuery_satExecTrace (s : Settings) (zstream : Bool) :
    (satExecTrace s zstream).count (Event.bugQuery 1967131) = 0 := by
  unfold satExecTrace
  split <;> [simp [List.count_cons]; skip]
  split <;> split <;> simp [List.count_append, List.count_cons]

/-- The final phase queries no bug. -/
theorem count_bugQuery_satFinishTrace (s : Settings) (satHost : String) :
    (satFinishTrace s satHost).count (Event.bugQuery 1967131) = 0 := by
  unfold satFinishTrace
  split <;> simp [List.count_append, List.count_cons]

/-- C9 amended: on a 6.10 run that passes the zStream check, bug 1967131 is
queried exactly twice — immediately before and immediately after the
migration — and the workaround runs next to each query exactly when the bug
is open at that query: the trace contains the contiguous block
query/(workaround apply)/migration/query/(workaround) with the workaround
steps present iff the bug is open. -/
theorem c9_bug_queried_twice_around_migration (s : Settings)
    (customRepos : List CustomRepoEntry) (bugOpen : Nat → Bool) (pulpOk : Bool)
    (zstream : Bool) (satHost : String) (h10 : s.to_version = "6.10")
    (hz : (zstream && (s.from_version != s.to_version)) = false) :
    (satUpgradeTrace s customRepos bugOpen pulpOk zstream satHost).count
        (Event.bugQuery 1967131) = 2
    ∧ List.IsInfix
        (if bugOpen 1967131 then
           [Event.bugQuery 1967131, Event.workaround1967131 true,
            Event.pulp2Pulp3Migration, Event.bugQuery 1967131,
            Event.workaround1967131 false]
         else
           [Event.bugQuery 1967131, Event.pulp2Pulp3Migration,
            Event.bugQuery 1967131])
        (satUpgradeTrace s customRepos bugOpen pulpOk zstream satHost) := by
  have hmigeq : satMigrationTrace s bugOpen
      = (if bugOpen 1967131 then
           [Event.bugQuery 1967131, Event.workaround1967131 true,
            Event.pulp2Pulp3Migration, Event.bugQuery 1967131,
            Event.workaround1967131 false]
         else
           [Event.bugQuery 1967131, Event.pulp2Pulp3Migration,
            Event.bugQuery 1967131]) := by
    unfold satMigrationTrace
    cases ho : bugOpen 1967131 <;> simp [h10, ho]
  unfold satUpgradeTrace satellite_upgrade
  simp only [hz, Bool.false_eq_true, if_false]
  split
  · constructor
    · simp [List.count_append, count_bugQuery_satRepoConfigTrace,
        count_bugQuery_satMigrationTrace s bugOpen h10]
    · exact ⟨satRepoConfigTrace s customRepos, [], by simp [hmigeq]⟩
  · constructor
    · simp [List.count_append, count_bugQuery_satRepoConfigTrace,
        count_bugQuery_satMigrationTrace s bugOpen h10,
        count_bugQuery_satExecTrace, count_bugQuery_satFinishTrace]
    · exact ⟨satRepoConfigTrace s customRepos,
        satExecTrace s zstream ++ satFinishTrace s satHost,
        by simp [hmigeq, List.append_assoc]⟩

/-- Witness for the amended C9 at a concrete 6.10 run with the bug open. -/
theorem c9_witness :
    (satUpgradeTrace wSettings [] (fun _ => true) true false "sat").count
        (Event.bugQuery 1967131) = 2
    ∧ List.IsInfix
        (if (fun _ => true : Nat → Bool) 1967131 then
           [Event.bugQuery 1967131, Event.workaround1967131 true,
            Event.pulp2Pulp3Migration, Event.bugQuery 1967131,
            Event.workaround1967131 false]
         else
           [Event.bugQuery 1967131, Event.pulp2Pulp3Migration,
            Event.bugQuery 1967131])
        (satUpgradeTrace wSettings [] (fun _ => true) true false "sat") :=
  c9_bug_queried_twice_around_migration wSettings [] (fun _ => true) true false
    "sat" (by decide) (by decide)


/-- One iteration of the probe loop decomposes into the probe, the fixed
middle steps, and — when the non-responsive list stays empty — the key copy
followed by the remaining iterations. -/
theorem capsuleSetupLoop_cons (sat : String) (allHosts : List String)
    (pings : String → Bool) (nonResponsive : List String) (h : String)
    (t : List String) :
    (capsuleSetupLoop sat allHosts pings nonResponsive (h :: t)).1
      = (if pings h then [Event.hostPings h, Event.hostSshAvailabilityCheck h]
         else [Event.hostPings h])
        ++ [Event.workaround1829115 h, Event.bugQuery 1829115,
            Event.foremanServiceRestart h]
        ++ (if (if pings h then nonResponsive else nonResponsive ++ [h]).isEmpty then
              Event.copySshKey sat allHosts
                :: (capsuleSetupLoop sat allHosts pings
                    (if pings h then nonResponsive else nonResponsive ++ [h]) t).1
            else []) := by
  conv_lhs => rw [capsuleSetupLoop.eq_def]
  cases hp : pings h
  · rcases hl : capsuleSetupLoop sat allHosts pings (nonResponsive ++ [h]) t
      with ⟨tr, r⟩
    simp [hp, hl]
  · rcases hl : capsuleSetupLoop sat allHosts pings nonResponsive t with ⟨tr, r⟩
    simp only [hp, if_true]
    split <;> simp [hl]

/-- Every event emitted by the per-host probe loop is one of the loop's own
steps (ping, SSH check, workaround, bug query, service restart, key copy). -/
theorem capsuleSetupLoop_events (sat : String) (allHosts : List String)
    (pings : String → Bool) (nonResponsive : List String)
    (hosts : List String) :
    ∀ e ∈ (capsuleSetupLoop sat allHosts pings nonResponsive hosts).1,
      isSetupLoopEvent e = true := by
  induction hosts generalizing nonResponsive with
  | nil =>
    intro e he
    simp [capsuleSetupLoop] at he
  | cons h t ih =>
    intro e he
    rw [capsuleSetupLoop_cons] at he
    simp only [List.mem_append] at he
    rcases he with (he | he) | he
    · split at he <;> simp only [List.mem_cons, List.not_mem_nil, or_false] at he
      · rcases he with rfl | rfl <;> rfl
      · subst he
        rfl
    · simp only [List.mem_cons, List.not_mem_nil, or_false] at he
      rcases he with rfl | rfl | rfl <;> rfl
    · cases hp : pings h <;>
        simp only [hp, Bool.false_eq_true, if_true, if_false] at he
      · rw [if_neg (by simp)] at he
        simp at he
      · split at he
        · rcases List.mem_cons.mp he with rfl | he
          · rfl
          · exact ih _ e he
        · simp at he

/-- C10: `satellite_capsule_setup` returns the capsule host list exactly
when `upgradable_capsule` is true (on runs that return at all), returns
`None` when it is false, and in that case performs none of the
satellite-side steps (`update_capsules_to_satellite`, HTTP proxy
configuration, `sync_capsule_repos_to_satellite`) nor the per-host repo
configuration (`add_baseOS_repo`, `yum_repos_cleanup`). -/
theorem c10_setup_return_value (sat : String) (capsuleHosts : List String)
    (osVersion : String) (upgradableCapsule : Bool) (s : Settings)
    (pings : String → Bool) :
    (∀ ret, (satellite_capsule_setup sat capsuleHosts osVersion upgradableCapsule
          s pings).2 = Except.ok ret →
        (ret = some capsuleHosts ↔ upgradableCapsule = true)
        ∧ (upgradableCapsule = false → ret = none))
    ∧ (upgradableCapsule = false →
        ∀ e ∈ (satellite_capsule_setup sat capsuleHosts osVersion upgradableCapsule
            s pings).1, isSatSideStep e = false) := by
  unfold satellite_capsule_setup
  cases hos : (osVersion == "rhel6" || osVersion == "rhel7")
  · simp
  · rcases hl : capsuleSetupLoop sat capsuleHosts pings [] capsuleHosts with ⟨t, r⟩
    have hloopev : ∀ e ∈ t, isSatSideStep e = false := by
      intro e he
      have h1 : isSetupLoopEvent e = true :=
        capsuleSetupLoop_events sat capsuleHosts pings [] capsuleHosts e
          (by rw [hl]; exact he)
      cases e <;> simp_all [isSetupLoopEvent, isSatSideStep]
    cases r with
    | error c =>
      simp only [hl]
      exact ⟨fun ret hret => by simp at hret, fun _ => hloopev⟩
    | ok nr =>
      cases hu : upgradableCapsule <;> simp [hl, hu]
      exact hloopev

/-- Witness for C10: a concrete upgradable run with one reachable host
returns the host list, and a concrete non-upgradable run touches none of
the satellite-side steps. -/
theorem c10_witness :
    ((some ["capx"] = some ["capx"] ↔ true = true)
      ∧ (true = false → some ["capx"] = none))
    ∧ (false = false →
        ∀ e ∈ (satellite_capsule_setup "sat" ["capx"] "rhel7" false wSettings
            (fun _ => true)).1, isSatSideStep e = false) :=
  ⟨(c10_setup_return_value "sat" ["capx"] "rhel7" true wSettings
      (fun _ => true)).1 (some ["capx"]) (by rfl),
   (c10_setup_return_value "sat" ["capx"] "rhel7" false wSettings
      (fun _ => true)).2⟩
